import Mathlib

/-!
Shallow embedding of the PocketCube servo motion sequencer
(`Servos.h` / `Servos.cpp`) and its calibration constants (`Config.h`).

The C++ class `Servos` owns one piece of mutable domain state,
`rotationAngleDegree : int`, plus the PWM driver.  Each operation writes
duty-cycle tick values to PWM channels via `pwm.setPWM(channel, 0, ticks)`
and blocks via `delay(ms)`.  We model the state as the tracked angle plus
the last-written tick per channel, and each operation additionally returns
the list of observable hardware events (PWM writes and delays) it issues,
in order.
-/

namespace PocketCube

/-- Config.h: `#define PWM_FREQUENCY_HZ 50`. -/
def PWM_FREQUENCY_HZ : Int := 50

/-- Config.h: `#define TURN_SERVO_CHANNEL 0`. -/
def TURN_SERVO_CHANNEL : Nat := 0

/-- Config.h: `#define ROTATE_SERVO_CHANNEL 1`. -/
def ROTATE_SERVO_CHANNEL : Nat := 1

/-- Config.h: `#define TURN_SERVO_MIN 100` (far crossbar just holding cube). -/
def TURN_SERVO_MIN : Int := 100

/-- Config.h: `#define TURN_SERVO_MAX 380` (close crossbar pushing cube over). -/
def TURN_SERVO_MAX : Int := 380

/-- Config.h: `#define ROTATE_SERVO_0 102`. -/
def ROTATE_SERVO_0 : Int := 102

/-- Config.h: `#define ROTATE_SERVO_90 247`. -/
def ROTATE_SERVO_90 : Int := 247

/-- Config.h: `#define ROTATE_SERVO_180 397`. -/
def ROTATE_SERVO_180 : Int := 397

/-- Config.h: `#define ROTATE_SERVO_270 533`. -/
def ROTATE_SERVO_270 : Int := 533

/-- Config.h: `#define TURN_DELAY_MS 550`. -/
def TURN_DELAY_MS : Int := 550

/-- Config.h: `#define ROTATE_DELAY_MS 650`. -/
def ROTATE_DELAY_MS : Int := 650

/-- Servos.cpp: `int rotationTicks[] = {ROTATE_SERVO_0, ROTATE_SERVO_90,
ROTATE_SERVO_180, ROTATE_SERVO_270};`. -/
def rotationTicks : List Int :=
  [ROTATE_SERVO_0, ROTATE_SERVO_90, ROTATE_SERVO_180, ROTATE_SERVO_270]

/-- One observable hardware action: a `pwm.setPWM(channel, on, ticks)` write
or a blocking `delay(ms)`. -/
inductive Event where
  | setPWM (channel : Nat) (onTick : Int) (ticks : Int)
  | delay (ms : Int)
  deriving DecidableEq, Repr

/-- Mutable state of the `Servos` object: the tracked rotation angle
(`rotationAngleDegree` in Servos.h, initialized to 0), plus the last tick
value written to each PWM channel (held by the PCA9685 board until the next
write on that channel). -/
structure State where
  rotationAngleDegree : Int
  turnTick : Int
  rotateTick : Int
  deriving DecidableEq, Repr

/-- Servos.cpp `Servos::rotateTo(int angleDegree)`: if the argument is one of
0, 90, 180, 270, compute `numberSteps90 = abs(rotationAngleDegree - angleDegree) / 90`,
look up `pcaTicks = rotationTicks[angleDegree / 90]`, write it to the rotate
channel, delay `numberSteps90 * ROTATE_DELAY_MS`, and set
`rotationAngleDegree = angleDegree`.  Otherwise do nothing. -/
def rotateTo (angleDegree : Int) (s : State) : State × List Event :=
  if (angleDegree == 0) || (angleDegree == 90) || (angleDegree == 180) || (angleDegree == 270) then
    let numberSteps90 : Int := |s.rotationAngleDegree - angleDegree| / 90
    let pcaTicks : Int := rotationTicks.getD (angleDegree / 90).toNat 0
    ({ s with rotateTick := pcaTicks, rotationAngleDegree := angleDegree },
     [Event.setPWM ROTATE_SERVO_CHANNEL 0 pcaTicks,
      Event.delay (numberSteps90 * ROTATE_DELAY_MS)])
  else
    (s, [])

/-- Servos.cpp `Servos::rotateLeft()`: `rotateTo(rotationAngleDegree - 90)`
when `rotationAngleDegree > 0`, else `rotateTo(270)`. -/
def rotateLeft (s : State) : State × List Event :=
  if s.rotationAngleDegree > 0 then
    rotateTo (s.rotationAngleDegree - 90) s
  else
    rotateTo 270 s

/-- Servos.cpp `Servos::rotateRight()`: `rotateTo(rotationAngleDegree + 90)`
when `rotationAngleDegree < 270`, else `rotateTo(0)`. -/
def rotateRight (s : State) : State × List Event :=
  if s.rotationAngleDegree < 270 then
    rotateTo (s.rotationAngleDegree + 90) s
  else
    rotateTo 0 s

/-- Servos.cpp `Servos::initPositions()`: write `TURN_SERVO_MIN` to the turn
channel, delay `TURN_DELAY_MS`, then `rotateTo(0)`, then delay
`2 * ROTATE_DELAY_MS`. -/
def initPositions (s : State) : State × List Event :=
  let s1 : State := { s with turnTick := TURN_SERVO_MIN }
  let r := rotateTo 0 s1
  (r.1,
   [Event.setPWM TURN_SERVO_CHANNEL 0 TURN_SERVO_MIN, Event.delay TURN_DELAY_MS]
     ++ r.2 ++ [Event.delay (2 * ROTATE_DELAY_MS)])

/-- Servos.cpp `Servos::turnCube()`: write `TURN_SERVO_MAX` to the turn
channel, delay `TURN_DELAY_MS`, write `TURN_SERVO_MIN`, delay `TURN_DELAY_MS`. -/
def turnCube (s : State) : State × List Event :=
  ({ s with turnTick := TURN_SERVO_MIN },
   [Event.setPWM TURN_SERVO_CHANNEL 0 TURN_SERVO_MAX, Event.delay TURN_DELAY_MS,
    Event.setPWM TURN_SERVO_CHANNEL 0 TURN_SERVO_MIN, Event.delay TURN_DELAY_MS])

/-- The set of angle values the sequencer considers valid. -/
def validAngle (a : Int) : Prop :=
  a = 0 ∨ a = 90 ∨ a = 180 ∨ a = 270

instance (a : Int) : Decidable (validAngle a) := by
  unfold validAngle; infer_instance

/-- Total blocking time, in milliseconds, of a list of hardware events. -/
def totalDelayMs (events : List Event) : Int :=
  events.foldl (fun acc e => match e with
    | Event.setPWM _ _ _ => acc
    | Event.delay ms => acc + ms) 0

/-- A public rotation command of the `Servos` class, as invoked by the
command dispatcher. `rotateTo` is included with an arbitrary argument. -/
inductive Cmd where
  | left
  | right
  | to (angleDegree : Int)
  deriving DecidableEq, Repr

/-- Execute one command on the state. -/
def runCmd (c : Cmd) (s : State) : State × List Event :=
  match c with
  | Cmd.left => rotateLeft s
  | Cmd.right => rotateRight s
  | Cmd.to a => rotateTo a s

/-- Execute a list of commands in order, discarding the event traces. -/
def runCmds (cs : List Cmd) (s : State) : State :=
  cs.foldl (fun s c => (runCmd c s).1) s

/-- The Bool validity guard in `rotateTo` holds exactly on the four valid
angles. -/
lemma guard_iff (v : Int) :
    ((v == 0) || (v == 90) || (v == 180) || (v == 270)) = true ↔ validAngle v := by
  simp [validAngle, or_assoc]

/-- Either `rotateTo a` set the tracked angle to a valid `a`, or it left the
whole state unchanged. -/
lemma rotateTo_fst_cases (a : Int) (s : State) :
    (validAngle a ∧ (rotateTo a s).1.rotationAngleDegree = a) ∨ (rotateTo a s).1 = s := by
  unfold rotateTo
  split
  case isTrue hg => exact Or.inl ⟨(guard_iff a).mp hg, rfl⟩
  case isFalse hg => exact Or.inr rfl

/-- `rotateTo` preserves validity of the tracked angle. -/
lemma rotateTo_validAngle (a : Int) (s : State)
    (h : validAngle s.rotationAngleDegree) :
    validAngle (rotateTo a s).1.rotationAngleDegree := by
  rcases rotateTo_fst_cases a s with ⟨hv, he⟩ | he
  · rw [he]; exact hv
  · rw [he]; exact h

/-- Every single command preserves validity of the tracked angle. -/
lemma runCmd_validAngle (c : Cmd) (s : State)
    (h : validAngle s.rotationAngleDegree) :
    validAngle (runCmd c s).1.rotationAngleDegree := by
  rcases c with _ | _ | a
  · show validAngle (rotateLeft s).1.rotationAngleDegree
    unfold rotateLeft
    split <;> exact rotateTo_validAngle _ _ h
  · show validAngle (rotateRight s).1.rotationAngleDegree
    unfold rotateRight
    split <;> exact rotateTo_validAngle _ _ h
  · exact rotateTo_validAngle _ _ h

/-- Running any command list preserves validity of the tracked angle. -/
lemma runCmds_validAngle (cs : List Cmd) (s : State)
    (h : validAngle s.rotationAngleDegree) :
    validAngle (runCmds cs s).rotationAngleDegree := by
  induction cs generalizing s with
  | nil => exact h
  | cons c cs ih => exact ih _ (runCmd_validAngle c s h)

/-- C1: for valid target angle `t` and valid current angle `a`, `rotateTo t`
writes the calibrated tick value for `t` to the rotate channel, waits
`(|a - t| / 90) * ROTATE_DELAY_MS` (the non-wrapping linear step count), and
sets the tracked angle to `t`. -/
theorem rotateTo_valid_spec (a t : Int) (s : State) (ha : validAngle a)
    (ht : validAngle t) (hs : s.rotationAngleDegree = a) :
    rotateTo t s =
      ({ s with rotationAngleDegree := t,
                rotateTick := rotationTicks.getD (t / 90).toNat 0 },
       [Event.setPWM ROTATE_SERVO_CHANNEL 0 (rotationTicks.getD (t / 90).toNat 0),
        Event.delay ((|a - t| / 90) * ROTATE_DELAY_MS)]) := by
  obtain ⟨ang, tt, rt⟩ := s
  have hang : ang = a := hs
  subst hang
  unfold validAngle at ha ht
  rcases ha with rfl | rfl | rfl | rfl <;> rcases ht with rfl | rfl | rfl | rfl <;> rfl

/-- Witness for C1: from angle 0, `rotateTo 180` writes the 180° tick and
waits two rotate-settle periods. -/
theorem rotateTo_valid_spec_witness :
    rotateTo 180 ⟨0, TURN_SERVO_MIN, ROTATE_SERVO_0⟩ =
      ({ rotationAngleDegree := 180, turnTick := TURN_SERVO_MIN,
         rotateTick := rotationTicks.getD ((180 : Int) / 90).toNat 0 },
       [Event.setPWM ROTATE_SERVO_CHANNEL 0 (rotationTicks.getD ((180 : Int) / 90).toNat 0),
        Event.delay ((|(0 : Int) - 180| / 90) * ROTATE_DELAY_MS)]) :=
  rotateTo_valid_spec 0 180 ⟨0, TURN_SERVO_MIN, ROTATE_SERVO_0⟩
    (Or.inl rfl) (Or.inr (Or.inr (Or.inl rfl))) rfl

/-- C2: starting from the initial state with tracked angle 0, after any
sequence of left/right/to commands (arbitrary integer arguments to `rotateTo`)
the tracked angle is always one of 0, 90, 180, 270. -/
theorem currentAngle_always_valid (cs : List Cmd) (t r : Int) :
    validAngle (runCmds cs ⟨0, t, r⟩).rotationAngleDegree :=
  runCmds_validAngle cs ⟨0, t, r⟩ (Or.inl rfl)

/-- C3 counterexample: from angle 270, `rotateRight` does NOT consume one
step-unit of wait: its total blocking time is 1950 ms = 3 × ROTATE_DELAY_MS,
not 1 × ROTATE_DELAY_MS, because `rotateTo 0` computes the linear step count
|270 − 0| / 90 = 3. -/
theorem rotateRight_from270_one_step_false :
    ¬ totalDelayMs (rotateRight ⟨270, TURN_SERVO_MIN, ROTATE_SERVO_270⟩).2
        = 1 * ROTATE_DELAY_MS := by
  decide

/-- C3 amended: when the tracked angle is 270, `rotateRight` sets the tracked
angle to 0 per the wraparound rule, and the move consumes 3 step-units of
wait (3 × ROTATE_DELAY_MS, the linear step count of `rotateTo`). -/
theorem rotateRight_from270 (s : State) (h : s.rotationAngleDegree = 270) :
    (rotateRight s).1.rotationAngleDegree = 0 ∧
    totalDelayMs (rotateRight s).2 = 3 * ROTATE_DELAY_MS := by
  obtain ⟨ang, tt, rt⟩ := s
  have hang : ang = 270 := h
  subst hang
  exact ⟨rfl, rfl⟩

/-- Witness for the amended C3 at the concrete state with angle 270. -/
theorem rotateRight_from270_witness :
    (rotateRight ⟨270, TURN_SERVO_MIN, ROTATE_SERVO_270⟩).1.rotationAngleDegree = 0 ∧
    totalDelayMs (rotateRight ⟨270, TURN_SERVO_MIN, ROTATE_SERVO_270⟩).2
      = 3 * ROTATE_DELAY_MS :=
  rotateRight_from270 ⟨270, TURN_SERVO_MIN, ROTATE_SERVO_270⟩ rfl

/-- C4: when the tracked angle is 0, `rotateLeft` sets it to 270 and waits
3 × ROTATE_DELAY_MS; when the tracked angle is valid and positive,
`rotateLeft` sets it to the current angle minus 90. -/
theorem rotateLeft_spec (s : State) (h : validAngle s.rotationAngleDegree) :
    (s.rotationAngleDegree = 0 →
      (rotateLeft s).1.rotationAngleDegree = 270 ∧
      totalDelayMs (rotateLeft s).2 = 3 * ROTATE_DELAY_MS) ∧
    (s.rotationAngleDegree > 0 →
      (rotateLeft s).1.rotationAngleDegree = s.rotationAngleDegree - 90) := by
  obtain ⟨ang, tt, rt⟩ := s
  replace h : ang = 0 ∨ ang = 90 ∨ ang = 180 ∨ ang = 270 := h
  rcases h with rfl | rfl | rfl | rfl
  · exact ⟨fun _ => ⟨rfl, rfl⟩, fun hpos => absurd hpos (by norm_num)⟩
  · exact ⟨fun h0 => absurd h0 (by norm_num), fun _ => rfl⟩
  · exact ⟨fun h0 => absurd h0 (by norm_num), fun _ => rfl⟩
  · exact ⟨fun h0 => absurd h0 (by norm_num), fun _ => rfl⟩

/-- Witness for C4 at the concrete state with angle 0: `rotateLeft` wraps to
270 with a 3-step wait. -/
theorem rotateLeft_spec_witness :
    (rotateLeft ⟨0, TURN_SERVO_MIN, ROTATE_SERVO_0⟩).1.rotationAngleDegree = 270 ∧
    totalDelayMs (rotateLeft ⟨0, TURN_SERVO_MIN, ROTATE_SERVO_0⟩).2
      = 3 * ROTATE_DELAY_MS :=
  (rotateLeft_spec ⟨0, TURN_SERVO_MIN, ROTATE_SERVO_0⟩ (Or.inl rfl)).1 rfl

/-- C5: for any integer argument outside {0, 90, 180, 270} and any current
state, `rotateTo` is a no-op: the state (including both last-written tick
values and the tracked angle) is unchanged and no hardware event is issued. -/
theorem rotateTo_invalid_noop (v : Int) (s : State) (h : ¬ validAngle v) :
    rotateTo v s = (s, []) := by
  unfold rotateTo
  split
  case isTrue hg => exact absurd ((guard_iff v).mp hg) h
  case isFalse hg => rfl

/-- Witness for C5 at `v = 45`. -/
theorem rotateTo_invalid_noop_witness :
    rotateTo 45 ⟨0, TURN_SERVO_MIN, ROTATE_SERVO_0⟩
      = (⟨0, TURN_SERVO_MIN, ROTATE_SERVO_0⟩, []) :=
  rotateTo_invalid_noop 45 ⟨0, TURN_SERVO_MIN, ROTATE_SERVO_0⟩ (by decide)

/-- C6: for valid `x`, a second `rotateTo x` right after a first one computes
step count 0, still re-writes the tick value for `x` to the rotate channel,
waits 0 × ROTATE_DELAY_MS, and leaves the state (tracked angle `x`)
unchanged. -/
theorem rotateTo_idempotent (x : Int) (s : State) (h : validAngle x) :
    rotateTo x (rotateTo x s).1 =
      ((rotateTo x s).1,
       [Event.setPWM ROTATE_SERVO_CHANNEL 0 (rotationTicks.getD (x / 90).toNat 0),
        Event.delay (0 * ROTATE_DELAY_MS)]) ∧
    (rotateTo x s).1.rotationAngleDegree = x := by
  unfold validAngle at h
  rcases h with rfl | rfl | rfl | rfl <;> exact ⟨rfl, rfl⟩

/-- Witness for C6 at `x = 90`. -/
theorem rotateTo_idempotent_witness :
    rotateTo 90 (rotateTo 90 ⟨0, TURN_SERVO_MIN, ROTATE_SERVO_0⟩).1 =
      ((rotateTo 90 ⟨0, TURN_SERVO_MIN, ROTATE_SERVO_0⟩).1,
       [Event.setPWM ROTATE_SERVO_CHANNEL 0 (rotationTicks.getD ((90 : Int) / 90).toNat 0),
        Event.delay (0 * ROTATE_DELAY_MS)]) ∧
    (rotateTo 90 ⟨0, TURN_SERVO_MIN, ROTATE_SERVO_0⟩).1.rotationAngleDegree = 90 :=
  rotateTo_idempotent 90 ⟨0, TURN_SERVO_MIN, ROTATE_SERVO_0⟩ (Or.inr (Or.inl rfl))

/-- C7: for every pre-call state, `initPositions` ends with tracked angle 0
and the turn channel holding `TURN_SERVO_MIN` (the hold position), and its
event sequence is: write the turn-hold tick, wait one turn-settle duration,
the events of `rotateTo 0`, then an additional settle wait. -/
theorem initPositions_spec (s : State) :
    (initPositions s).1.rotationAngleDegree = 0 ∧
    (initPositions s).1.turnTick = TURN_SERVO_MIN ∧
    (initPositions s).2 =
      [Event.setPWM TURN_SERVO_CHANNEL 0 TURN_SERVO_MIN, Event.delay TURN_DELAY_MS]
        ++ (rotateTo 0 { s with turnTick := TURN_SERVO_MIN }).2
        ++ [Event.delay (2 * ROTATE_DELAY_MS)] :=
  ⟨rfl, rfl, rfl⟩

/-- C8: `turnCube` never changes the tracked angle, its event sequence is
exactly push-tick, settle, hold-tick, settle on the turn channel, and it
issues no write to the rotate channel. -/
theorem turnCube_spec (s : State) :
    (turnCube s).1.rotationAngleDegree = s.rotationAngleDegree ∧
    (turnCube s).2 =
      [Event.setPWM TURN_SERVO_CHANNEL 0 TURN_SERVO_MAX, Event.delay TURN_DELAY_MS,
       Event.setPWM TURN_SERVO_CHANNEL 0 TURN_SERVO_MIN, Event.delay TURN_DELAY_MS] ∧
    ∀ onTick ticks, Event.setPWM ROTATE_SERVO_CHANNEL onTick ticks ∉ (turnCube s).2 := by
  refine ⟨rfl, rfl, ?_⟩
  intro onTick ticks
  simp [turnCube, ROTATE_SERVO_CHANNEL, TURN_SERVO_CHANNEL]

/-- C9: the four rotation calibration ticks are strictly increasing across
the linear 0–270° sweep, and every configured tick value lies in the 0–4095
duty-cycle range. -/
theorem calibration_invariant :
    ROTATE_SERVO_0 < ROTATE_SERVO_90 ∧ ROTATE_SERVO_90 < ROTATE_SERVO_180 ∧
    ROTATE_SERVO_180 < ROTATE_SERVO_270 ∧
    rotationTicks.Chain' (fun a b => a < b) ∧
    (∀ x ∈ rotationTicks, 0 ≤ x ∧ x ≤ 4095) ∧
    0 ≤ TURN_SERVO_MIN ∧ TURN_SERVO_MIN ≤ 4095 ∧
    0 ≤ TURN_SERVO_MAX ∧ TURN_SERVO_MAX ≤ 4095 := by
  refine ⟨by decide, by decide, by decide, ?_, ?_, by decide, by decide, by decide, by decide⟩
  · simp [rotationTicks, ROTATE_SERVO_0, ROTATE_SERVO_90, ROTATE_SERVO_180, ROTATE_SERVO_270]
  · intro x hx
    simp [rotationTicks, ROTATE_SERVO_0, ROTATE_SERVO_90, ROTATE_SERVO_180,
      ROTATE_SERVO_270] at hx
    rcases hx with rfl | rfl | rfl | rfl <;> exact ⟨by decide, by decide⟩

/-- C10: for every valid tracked angle, `rotateRight` then `rotateLeft`
restores the tracked angle, and `rotateLeft` then `rotateRight` restores it
as well, including across the 0/270 wraparound. -/
theorem rotate_left_right_inverse (s : State) (h : validAngle s.rotationAngleDegree) :
    (rotateLeft (rotateRight s).1).1.rotationAngleDegree = s.rotationAngleDegree ∧
    (rotateRight (rotateLeft s).1).1.rotationAngleDegree = s.rotationAngleDegree := by
  obtain ⟨ang, tt, rt⟩ := s
  replace h : ang = 0 ∨ ang = 90 ∨ ang = 180 ∨ ang = 270 := h
  rcases h with rfl | rfl | rfl | rfl <;> exact ⟨rfl, rfl⟩

/-- Witness for C10 at the concrete state with angle 0 (the wraparound
case in both directions). -/
theorem rotate_left_right_inverse_witness :
    (rotateLeft (rotateRight ⟨0, TURN_SERVO_MIN, ROTATE_SERVO_0⟩).1).1.rotationAngleDegree
        = (⟨0, TURN_SERVO_MIN, ROTATE_SERVO_0⟩ : State).rotationAngleDegree ∧
    (rotateRight (rotateLeft ⟨0, TURN_SERVO_MIN, ROTATE_SERVO_0⟩).1).1.rotationAngleDegree
        = (⟨0, TURN_SERVO_MIN, ROTATE_SERVO_0⟩ : State).rotationAngleDegree :=
  rotate_left_right_inverse ⟨0, TURN_SERVO_MIN, ROTATE_SERVO_0⟩ (Or.inl rfl)

end PocketCube
